import Mathlib

/-!
Verification of the moore VHDL type-checking core (`src/vhdl/typeck.rs` and
`src/vhdl/ty2/arena.rs`) against its specification.

The functions of `typeck.rs` are embedded shallowly.  The scoreboard
collaborators (`ScoreContext::ty`, `const_value`, `type_context_resolved`,
`hir` lookups) are external services; they are modelled as explicit record
fields mapping node ids (plain naturals) to `Except Unit` results, exactly
as `score::Result<T> = Result<T, ()>` behaves at the call sites in the
source.  Diagnostics emitted by a function are returned as an explicit
list.  Source spans carried by hir nodes and diagnostics are omitted: they
are presentation data that none of the checked logic branches on.
-/

namespace Moore

/-- Direction of a VHDL range, `to` or `downto` (from `hir::Dir`). -/
inductive Dir where
  | to
  | downto
deriving DecidableEq, Repr

/-- Render a direction the way the diagnostic formatting does. -/
def Dir.str : Dir → String
  | Dir.to => "to"
  | Dir.downto => "downto"

/-- An integer type with a direction and two bounds (from `ty::IntTy`,
whose fields `dir`, `left_bound`, `right_bound` are read by
`typeck.rs`).  Bounds are arbitrary-precision integers. -/
structure IntTy where
  dir : Dir
  left_bound : Int
  right_bound : Int
deriving DecidableEq, Repr

mutual

/-- The type values handled by `typeck.rs` (from `ty::Ty`, which is not
under `src/`; the variants and the fields below are exactly those the
checked code constructs or inspects: `Named`, `Int`, enums, null,
universal integer, `Access`, `Array`). -/
inductive Ty where
  | named (tmr : Nat)
  | int (t : IntTy)
  | enumTy (decl : Nat)
  | nullTy
  | universalInt
  | access (inner : Ty)
  | array (indices : ArrayIndices) (elem : Ty)
deriving DecidableEq

/-- The index sequence of an array type: each index is either unbounded
(owning the index type) or constrained (owning a concrete index subtype),
mirroring `ty::ArrayIndex`. -/
inductive ArrayIndices where
  | nil
  | cons (unbounded : Bool) (idx : Ty) (rest : ArrayIndices)
deriving DecidableEq

end

/-- Modelled from the spec: `kind_desc` of `ty::Ty` is external to `src/`;
the spec only requires the diagnostic to name the offending kind of type. -/
def Ty.kind_desc : Ty → String
  | Ty.named _ => "named type"
  | Ty.int _ => "integer type"
  | Ty.enumTy _ => "enumeration type"
  | Ty.nullTy => "null type"
  | Ty.universalInt => "universal integer type"
  | Ty.access _ => "access type"
  | Ty.array _ _ => "array type"

/-- Build an integer type from a direction and bounds (`IntTy::new`). -/
def IntTy.new (dir : Dir) (left_bound right_bound : Int) : IntTy :=
  ⟨dir, left_bound, right_bound⟩

/-- Whether the range of an integer type is empty: the left boundary does
not precede the right boundary in the given direction. -/
def IntTy.is_null (t : IntTy) : Bool :=
  match t.dir with
  | Dir.to => t.left_bound > t.right_bound
  | Dir.downto => t.left_bound < t.right_bound

/-- Modelled from the spec: `IntTy::maybe_null` lives in `ty.rs`, which is
not under `src/`.  Per the maybe-null rule of the spec (section 4.2 and the
glossary), a constructed range type is a valid integer subtype regardless
of whether it denotes an empty value set; emptiness is a property of the
type (see `IntTy.is_null`), not a construction error.  So the integer type
is returned as a type value unchanged. -/
def IntTy.maybe_null (t : IntTy) : Ty :=
  Ty.int t

/-- Render an integer type the way its `Display` is used in diagnostics:
the bounds around the direction. -/
def IntTy.str (t : IntTy) : String :=
  toString t.left_bound ++ " " ++ t.dir.str ++ " " ++ toString t.right_bound

/-- An integer constant (from `konst::ConstInt`; only its `value` field is
read by the checked code). -/
structure ConstInt where
  value : Int
deriving DecidableEq, Repr

/-- An integer range constant (from `konst::ConstIntRange`, with a
direction and two integer bounds). -/
structure ConstIntRange where
  dir : Dir
  left_bound : ConstInt
  right_bound : ConstInt
deriving DecidableEq, Repr

/-- Render an integer range constant for diagnostics. -/
def ConstIntRange.str (r : ConstIntRange) : String :=
  toString r.left_bound.value ++ " " ++ r.dir.str ++ " " ++ toString r.right_bound.value

/-- A constant value as returned by the constant-evaluation collaborator
(from `konst::Const`: integer, float, or integer-range variants; the float
payload is never inspected by the checked code, only matched on). -/
inductive Const where
  | int (v : ConstInt)
  | float
  | intRange (r : ConstIntRange)
deriving DecidableEq, Repr

/-- Render a constant for diagnostics. -/
def Const.str : Const → String
  | Const.int v => toString v.value
  | Const.float => "float constant"
  | Const.intRange r => r.str

/-- Modelled from the spec: `Const::kind_desc` lives in `konst.rs`, which
is not under `src/`; the diagnostic only needs a short kind description. -/
def Const.kind_desc : Const → String
  | Const.int _ => "integer"
  | Const.float => "float"
  | Const.intRange _ => "integer range"

/-- Modelled from the spec: diagnostic severities (section 6 requires at
least `Error` and an internal `Bug` level, the latter used for
not-implemented reports and counting as at least an error). -/
inductive Severity where
  | note
  | warning
  | error
  | bug
deriving DecidableEq, Repr

/-- Numeric level of a severity, for the `severity >= Severity::Error`
comparison in `TypeckContext::emit`. -/
def Severity.level : Severity → Nat
  | Severity.note => 0
  | Severity.warning => 1
  | Severity.error => 2
  | Severity.bug => 3

/-- A structured diagnostic record (from `DiagBuilder2`): a severity and a
message; the span attribution is omitted. -/
structure Diag where
  severity : Severity
  message : String
deriving DecidableEq, Repr

/-- A diagnostic built by `DiagBuilder2::error`. -/
def Diag.mkError (m : String) : Diag :=
  ⟨Severity.error, m⟩

/-- A diagnostic built by `DiagBuilder2::bug`. -/
def Diag.mkBug (m : String) : Diag :=
  ⟨Severity.bug, m⟩

/-- The hir of one array type index (from `hir::ArrayTypeIndex` as matched
in `typeck.rs`): unbounded with a type mark, a subtype indication
reference, or an inline range with two bound expressions. -/
inductive ArrayTypeIndexHir where
  | unbounded (tm : Nat)
  | subtypeInd (subty : Nat)
  | range (dir : Dir) (lb rb : Nat)
deriving DecidableEq, Repr

/-- A constraint on a subtype indication (from `hir::Constraint` as
matched in `typeck.rs`: `Range` with its evaluated expression, `Range2`
with a direction and two bound expressions, array, record).  The first
field of `Range` and the payloads of the array and record constraints are
ignored by the checked code apart from spans. -/
inductive Constraint where
  | range (exprId : Nat)
  | range2 (dir : Dir) (lb rb : Nat)
  | arrayC
  | recordC
deriving DecidableEq, Repr

/-- The hir of a subtype indication: a type mark and an optional
constraint. -/
structure SubtypeIndHir where
  type_mark : Nat
  constraint : Option Constraint
deriving DecidableEq, Repr

/-- An integer literal as carried by `hir::ExprData::IntegerLiteral`: the
constant may already have a type attached. -/
structure IntLit where
  ty : Option Ty
deriving DecidableEq

/-- Expression payloads matched by the `ExprRef` rule in `typeck.rs`. -/
inductive ExprData where
  | integerLiteral (c : IntLit)
  | floatLiteral
  | otherExpr
deriving DecidableEq

/-- The hir of an expression: its payload and the extracted source text of
its span (used verbatim in the cannot-infer diagnostic). -/
structure ExprHir where
  spanText : String
  data : ExprData
deriving DecidableEq

/-- A waveform element (from `hir::WaveElem` as used in
`typeck_wave_elem`): an optional value expression and an optional after
delay expression. -/
structure WaveElem where
  value : Option Nat
  after : Option Nat
deriving DecidableEq, Repr

/-- The delay mechanism of a signal assignment; `typeck_delay_mechanism`
never inspects it (it is a stub), so it carries no data here. -/
inductive DelayMechanism where
  | stub
deriving DecidableEq, Repr

/-- Modelled from the spec: the conditional-assignment payload
(`hir::Cond`) is external to `src/`; per section 4.3 a conditional
waveform carries waveform alternatives guarded by condition
expressions. -/
structure CondWaveforms where
  whens : List (List WaveElem × Nat)
deriving DecidableEq, Repr

/-- Modelled from the spec: the selected-assignment payload is external to
`src/`; per section 4.3 a selected waveform carries waveform choices. -/
structure SelWaveforms where
  choices : List (List WaveElem × Nat)
deriving DecidableEq, Repr

/-- The target of a signal assignment (from `hir::SigAssignTarget`): a
named signal or an aggregate. -/
inductive SigAssignTarget where
  | name (sig : Nat)
  | aggregate
deriving DecidableEq, Repr

/-- The kind of a signal assignment (from `hir::SigAssignKind` as matched
in `typeck.rs`); the force/release mode flags are never inspected and are
dropped. -/
inductive SigAssignKind where
  | simpleWave (dm : DelayMechanism) (wave : List WaveElem)
  | simpleForce (expr : Nat)
  | simpleRelease
  | condWave (dm : DelayMechanism) (cond : CondWaveforms)
  | condForce (cond : CondWaveforms)
  | selWave (dm : DelayMechanism) (sel : SelWaveforms)
  | selForce (sel : SelWaveforms)
deriving DecidableEq, Repr

/-- The hir of a signal assignment statement: a target and a kind. -/
structure SigAssignHir where
  target : SigAssignTarget
  kind : SigAssignKind
deriving DecidableEq, Repr

/-- The external collaborators of the checked code, keyed by node id:
`ScoreContext::ty` (memoized type computation), `const_value`,
`type_context_resolved`, and the hir lookups for the node kinds the
checked functions visit.  `Except Unit` mirrors
`score::Result<T> = Result<T, ()>`. -/
structure Services where
  tyOf : Nat → Except Unit Ty
  constOf : Nat → Except Unit Const
  typeContext : Nat → Except Unit (Option Ty)
  hirExpr : Nat → Except Unit ExprHir
  hirArrayIndex : Nat → Except Unit ArrayTypeIndexHir
  hirSigAssign : Nat → Except Unit SigAssignHir

/-- The recursive dereferencing of named types
(`ScoreContext::deref_named_type`): while the type is `Named`, look the
referenced node up in the type service and recurse.  The source recursion
carries no cycle guard, so the embedding is fueled: `none` means the fuel
was exhausted, witnessing that the unfueled recursion does not reach a
result. -/
def derefNamedType (s : Services) : Nat → Ty → Option (Except Unit Ty)
  | 0, _ => none
  | fuel + 1, t =>
    match t with
    | Ty.named tmr =>
      match s.tyOf tmr with
      | Except.error e => some (Except.error e)
      | Except.ok inner => derefNamedType s fuel inner
    | other => some (Except.ok other)

/-- Message of the not-a-subrange diagnostic of the `Range` arm. -/
def msgNotSubrangeRange (r : ConstIntRange) (inner : IntTy) : String :=
  "`" ++ r.str ++ "` is not a subrange of `" ++ inner.str ++ "`"

/-- Message of the not-a-subrange diagnostic of the `Range2` arm. -/
def msgNotSubrangeRange2 (lb : ConstInt) (dir : Dir) (rb : ConstInt) (inner : IntTy) : String :=
  "`" ++ toString lb.value ++ " " ++ dir.str ++ " " ++ toString rb.value
    ++ "` is not a subrange of `" ++ inner.str ++ "`"

/-- Message of the non-integer-range diagnostic of the `Range2` arm. -/
def msgNonIntegerRange (lb : Const) (dir : Dir) (rb : Const) : String :=
  "non-integer range `" ++ lb.str ++ " " ++ dir.str ++ " " ++ rb.str
    ++ "` cannot constrain an integer type"

/-- Message of the wrong-constant-kind diagnostic of the `Range` arm. -/
def msgWrongConstKind (c : Const) : String :=
  c.kind_desc ++ " used to constrain integer type"

/-- Message of the cannot-be-constrained diagnostic. -/
def msgCannotConstrain (t : Ty) : String :=
  t.kind_desc ++ " cannot be constrained by range"

/-- Message of the bound-kind mismatch diagnostic of `make_range_ty`. -/
def msgBoundsNotSameType : String :=
  "Bounds of range are not of the same type"

/-- Message of the float-bounds diagnostic of `make_range_ty`. -/
def msgFloatBounds : String :=
  "Float range bounds not yet supported"

/-- Message of the array-constraint diagnostic. -/
def msgArrayConstraint : String :=
  "Array constraints on subtypes not yet supported"

/-- Message of the record-constraint diagnostic. -/
def msgRecordConstraint : String :=
  "Record constraints on subtypes not yet supported"

/-- The type of a subtype indication (the `impl_make` rule for
`SubtypeIndRef`), given its hir.  Returns the result together with the
diagnostics the rule itself emits; `none` means the inner
`deref_named_type` ran out of fuel. -/
def subtypeIndType (s : Services) (fuel : Nat) (hir : SubtypeIndHir) :
    Option (Except Unit Ty × List Diag) :=
  match hir.constraint with
  | none => some (Except.ok (Ty.named hir.type_mark), [])
  | some (Constraint.range exprId) =>
    match s.tyOf hir.type_mark with
    | Except.error _ => some (Except.error (), [])
    | Except.ok t0 =>
      match derefNamedType s fuel t0 with
      | none => none
      | some (Except.error _) => some (Except.error (), [])
      | some (Except.ok inner) =>
        match inner with
        | Ty.int innerI =>
          match s.constOf exprId with
          | Except.error _ => some (Except.error (), [])
          | Except.ok (Const.intRange r) =>
            if innerI.dir ≠ r.dir ∨ innerI.left_bound > r.left_bound.value
                ∨ innerI.right_bound < r.right_bound.value then
              some (Except.error (), [Diag.mkError (msgNotSubrangeRange r innerI)])
            else
              some (Except.ok ((IntTy.new innerI.dir r.left_bound.value r.right_bound.value).maybe_null), [])
          | Except.ok wrong =>
            some (Except.error (), [Diag.mkError (msgWrongConstKind wrong)])
        | other =>
          some (Except.error (), [Diag.mkError (msgCannotConstrain other)])
  | some (Constraint.range2 dir lbId rbId) =>
    match s.constOf lbId with
    | Except.error _ => some (Except.error (), [])
    | Except.ok lb =>
      match s.constOf rbId with
      | Except.error _ => some (Except.error (), [])
      | Except.ok rb =>
        match s.tyOf hir.type_mark with
        | Except.error _ => some (Except.error (), [])
        | Except.ok t0 =>
          match derefNamedType s fuel t0 with
          | none => none
          | some (Except.error _) => some (Except.error (), [])
          | some (Except.ok inner) =>
            match inner with
            | Ty.int innerI =>
              match lb, rb with
              | Const.int lbi, Const.int rbi =>
                if innerI.dir ≠ dir ∨ innerI.left_bound > lbi.value
                    ∨ innerI.right_bound < rbi.value then
                  some (Except.error (), [Diag.mkError (msgNotSubrangeRange2 lbi dir rbi innerI)])
                else
                  some (Except.ok ((IntTy.new innerI.dir lbi.value rbi.value).maybe_null), [])
              | _, _ =>
                some (Except.error (), [Diag.mkError (msgNonIntegerRange lb dir rb)])
            | other =>
              some (Except.error (), [Diag.mkError (msgCannotConstrain other)])
  | some Constraint.arrayC =>
    some (Except.error (), [Diag.mkError msgArrayConstraint])
  | some Constraint.recordC =>
    some (Except.error (), [Diag.mkError msgRecordConstraint])

/-- The shared range type builder (`ScoreContext::make_range_ty`):
evaluates both bound expressions; two integer constants build an integer
type under the maybe-null rule, two float constants fail as unsupported,
and mismatched constant kinds fail with the bound-kind mismatch
message. -/
def make_range_ty (s : Services) (dir : Dir) (lbId rbId : Nat) :
    Except Unit Ty × List Diag :=
  match s.constOf lbId with
  | Except.error _ => (Except.error (), [])
  | Except.ok lb =>
    match s.constOf rbId with
    | Except.error _ => (Except.error (), [])
    | Except.ok rb =>
      match lb, rb with
      | Const.int lbi, Const.int rbi =>
        (Except.ok ((IntTy.new dir lbi.value rbi.value).maybe_null), [])
      | Const.float, Const.float =>
        (Except.error (), [Diag.mkError msgFloatBounds])
      | _, _ =>
        (Except.error (), [Diag.mkError msgBoundsNotSameType])

/-- Build the `ArrayIndices` chain from a plain list of resolved indices
(the `indices` vector of the source loop); the flag marks an unbounded
index. -/
def ArrayIndices.ofList : List (Bool × Ty) → ArrayIndices
  | [] => ArrayIndices.nil
  | (u, t) :: rest => ArrayIndices.cons u t (ArrayIndices.ofList rest)

/-- Resolution of one array index whose hir is available: the body of the
`indices.push(match hir.value { ... })` expression.  Each failing inner
lookup is propagated (the source applies `?` to it). -/
def resolveArrayIndex (s : Services) (h : ArrayTypeIndexHir) :
    Except Unit (Bool × Ty) × List Diag :=
  match h with
  | ArrayTypeIndexHir.unbounded tm =>
    match s.tyOf tm with
    | Except.error _ => (Except.error (), [])
    | Except.ok t => (Except.ok (true, t), [])
  | ArrayTypeIndexHir.subtypeInd subty =>
    match s.tyOf subty with
    | Except.error _ => (Except.error (), [])
    | Except.ok t => (Except.ok (false, t), [])
  | ArrayTypeIndexHir.range dir lb rb =>
    match make_range_ty s dir lb rb with
    | (Except.error _, ds) => (Except.error (), ds)
    | (Except.ok t, ds) => (Except.ok (false, t), ds)

/-- The index loop of the array arm of the `TypeDeclRef` rule.  A failing
hir lookup of an index sets the `had_fails` flag and continues with the
next index; a failing inner resolution aborts the whole loop (the source
applies `?` inside the loop body).  Besides the result and the emitted
diagnostics, the embedding returns the list of index ids whose hir lookup
was performed, in order, so that which indices were attempted is
observable. -/
def arrayIndicesLoop (s : Services) :
    List Nat → Bool → List (Bool × Ty) →
    Except Unit (List (Bool × Ty) × Bool) × List Diag × List Nat
  | [], hadFails, acc => (Except.ok (acc, hadFails), [], [])
  | id :: rest, hadFails, acc =>
    match s.hirArrayIndex id with
    | Except.error _ =>
      match arrayIndicesLoop s rest true acc with
      | (r, ds, tr) => (r, ds, id :: tr)
    | Except.ok h =>
      match resolveArrayIndex s h with
      | (Except.error _, ds) => (Except.error (), ds, [id])
      | (Except.ok idx, ds) =>
        match arrayIndicesLoop s rest hadFails (acc ++ [idx]) with
        | (r, ds2, tr) => (r, ds ++ ds2, id :: tr)

/-- The array arm of the `TypeDeclRef` rule: run the index loop, return
failure if any index hir lookup had failed, then resolve the element type
and build the array type. -/
def typeDeclArray (s : Services) (indexIds : List Nat) (elemTyId : Nat) :
    Except Unit Ty × List Diag × List Nat :=
  match arrayIndicesLoop s indexIds false [] with
  | (Except.error _, ds, tr) => (Except.error (), ds, tr)
  | (Except.ok (indices, hadFails), ds, tr) =>
    if hadFails then (Except.error (), ds, tr)
    else
      match s.tyOf elemTyId with
      | Except.error _ => (Except.error (), ds, tr)
      | Except.ok et => (Except.ok (Ty.array (ArrayIndices.ofList indices) et), ds, tr)

/-- Message of the cannot-infer diagnostic of the integer-literal rule,
quoting the extracted source text of the expression span. -/
def msgCannotInfer (text : String) : String :=
  "cannot infer type of `" ++ text ++ "` from context"

/-- Message of the unimplemented-typeck diagnostic, naming the node. -/
def msgTypeckNotImplemented (id : Nat) : String :=
  "typeck of expression node " ++ toString id ++ " not implemented"

/-- The `ExprRef` rule: an integer literal with an attached type returns
it at once; otherwise the contextual expected type is adopted when it
dereferences to an integer type; otherwise the rule fails with the
cannot-infer diagnostic.  Float literals and all other expression forms
report a bug-severity not-implemented diagnostic and fail.  `none` means
the inner `deref_named_type` ran out of fuel. -/
def exprType (s : Services) (fuel : Nat) (id : Nat) :
    Option (Except Unit Ty × List Diag) :=
  match s.hirExpr id with
  | Except.error _ => some (Except.error (), [])
  | Except.ok h =>
    match h.data with
    | ExprData.integerLiteral c =>
      match c.ty with
      | some t => some (Except.ok t, [])
      | none =>
        match s.typeContext id with
        | Except.error _ => some (Except.error (), [])
        | Except.ok none =>
          some (Except.error (), [Diag.mkError (msgCannotInfer h.spanText)])
        | Except.ok (some t) =>
          match derefNamedType s fuel t with
          | none => none
          | some (Except.error _) => some (Except.error (), [])
          | some (Except.ok (Ty.int _)) => some (Except.ok t, [])
          | some (Except.ok _) =>
            some (Except.error (), [Diag.mkError (msgCannotInfer h.spanText)])
    | ExprData.floatLiteral =>
      some (Except.error (), [Diag.mkBug (msgTypeckNotImplemented id)])
    | ExprData.otherExpr =>
      some (Except.error (), [Diag.mkBug (msgTypeckNotImplemented id)])

mutual

/-- Render a type value the way the debug formatting of the mismatch
diagnostic does. -/
def Ty.debugStr : Ty → String
  | Ty.named n => "Named(" ++ toString n ++ ")"
  | Ty.int t => "Int(" ++ t.str ++ ")"
  | Ty.enumTy d => "Enum(" ++ toString d ++ ")"
  | Ty.nullTy => "Null"
  | Ty.universalInt => "UniversalInteger"
  | Ty.access t => "Access(" ++ Ty.debugStr t ++ ")"
  | Ty.array idx e => "Array(" ++ ArrayIndices.debugStr idx ++ ", " ++ Ty.debugStr e ++ ")"

/-- Render an array index chain for the debug formatting. -/
def ArrayIndices.debugStr : ArrayIndices → String
  | ArrayIndices.nil => ""
  | ArrayIndices.cons u t rest =>
    (if u then "Unbounded(" else "Constrained(") ++ Ty.debugStr t ++ ") "
      ++ ArrayIndices.debugStr rest

end

/-- Message of the type-mismatch diagnostic of `typeck_node`. -/
def msgTypeckFailed (expected actual : Ty) : String :=
  "typecheck failed, expected " ++ expected.debugStr ++ ", got " ++ actual.debugStr

/-- Message of the aggregate-target diagnostic of the signal-assignment
rule (built through the `unimpmsg` macro). -/
def msgAggregateTarget : String :=
  "assignment to aggregate signal not implemented"

/-- The mutable state of a `TypeckContext` session, together with the
trace of the diagnostics emitted through the context
(`TypeckContext::emit`): the `failed` cell is the only mutable state of
the context. -/
structure CtxState where
  failed : Bool
  diags : List Diag
deriving DecidableEq

/-- A freshly created context (`TypeckContext::new`): the flag starts
clear. -/
def newCtx : CtxState :=
  ⟨false, []⟩

/-- Whether a severity is at least `Severity::Error`. -/
def Severity.atLeastError (sev : Severity) : Bool :=
  Severity.level Severity.error ≤ sev.level

/-- Rule `TypeckContext::emit`: an error-or-above severity sets the failure
flag; the diagnostic is always forwarded (recorded in the trace). -/
def emitCtx (st : CtxState) (d : Diag) : CtxState :=
  ⟨st.failed || d.severity.atLeastError, st.diags ++ [d]⟩

/-- Rule `TypeckContext::typeck_node`: compute the type of the node (the
result of the external `ctx.ty` call is supplied by the type service);
on success compare it to the expected type and emit a mismatch error when
they differ, on failure set the failure flag directly without emitting
anything through the context. -/
def typeckNodeCtx (s : Services) (st : CtxState) (v : Nat) (exp : Ty) : CtxState :=
  match s.tyOf v with
  | Except.ok act => if act ≠ exp then emitCtx st (Diag.mkError (msgTypeckFailed exp act)) else st
  | Except.error _ => ⟨true, st.diags⟩

/-- Rule `TypeckContext::typeck_delay_mechanism`: a stub that checks
nothing. -/
def typeckDelayMechanism (st : CtxState) : CtxState :=
  st

/-- Rule `TypeckContext::typeck_wave_elem`: check the value expression against
the expected type when present; the after delay expression check is a
stubbed hook that checks nothing. -/
def typeckWaveElem (s : Services) (st : CtxState) (e : WaveElem) (exp : Ty) : CtxState :=
  match e.value with
  | some v => typeckNodeCtx s st v exp
  | none => st

/-- Rule `TypeckContext::typeck_waveform`: check every element. -/
def typeckWaveform (s : Services) (st : CtxState) (w : List WaveElem) (exp : Ty) : CtxState :=
  w.foldl (fun acc e => typeckWaveElem s acc e exp) st

/-- The `SigAssignStmtRef` rule (an `impl_typeck_err` whose result is
dropped by `std::mem::forget`, so a propagated lookup failure leaves the
context state untouched): resolve the type of the target, failing with a
bug diagnostic on an aggregate target; then dispatch on the assignment
kind.  Only the plain-waveform kind checks its waveform against the
target type; the delay mechanism check is a stub, and the remaining kinds
have their checks commented out in the source. -/
def sigAssignTypeck (s : Services) (st : CtxState) (id : Nat) : CtxState :=
  match s.hirSigAssign id with
  | Except.error _ => st
  | Except.ok h =>
    match h.target with
    | SigAssignTarget.aggregate => emitCtx st (Diag.mkBug msgAggregateTarget)
    | SigAssignTarget.name sig =>
      match s.tyOf sig with
      | Except.error _ => st
      | Except.ok lhsTy =>
        match h.kind with
        | SigAssignKind.simpleWave _ wave =>
          typeckWaveform s (typeckDelayMechanism st) wave lhsTy
        | SigAssignKind.simpleForce _ => st
        | SigAssignKind.simpleRelease => st
        | SigAssignKind.condWave _ _ => typeckDelayMechanism st
        | SigAssignKind.condForce _ => st
        | SigAssignKind.selWave _ _ => typeckDelayMechanism st
        | SigAssignKind.selForce _ => st

/-- One operation performed through a `TypeckContext` during a session:
a direct emission, a `typeck_node` leaf check, a blanket `Typeck`
dispatch carrying the result of the external `ScoreContext::make`, the
delay-mechanism stub, a waveform check, or a signal-assignment
statement check.  The composite traversals of the source
(`typeck_slice`, the per-kind dispatch rules) are sequences of these. -/
inductive COp where
  | emitOp (d : Diag)
  | nodeOp (v : Nat) (exp : Ty)
  | makeOp (res : Except Unit Ty)
  | delayOp
  | waveOp (w : List WaveElem) (exp : Ty)
  | sigAssignOp (id : Nat)

/-- The state transition of one context operation.  The blanket `Typeck`
implementation sets the failure flag when `ScoreContext::make` failed and
does nothing otherwise. -/
def copStep (s : Services) (st : CtxState) : COp → CtxState
  | COp.emitOp d => emitCtx st d
  | COp.nodeOp v exp => typeckNodeCtx s st v exp
  | COp.makeOp (Except.ok _) => st
  | COp.makeOp (Except.error _) => ⟨true, st.diags⟩
  | COp.delayOp => typeckDelayMechanism st
  | COp.waveOp w exp => typeckWaveform s st w exp
  | COp.sigAssignOp id => sigAssignTypeck s st id

/-- Run a session: fold the operations over a context state. -/
def runOps (s : Services) (st : CtxState) (ops : List COp) : CtxState :=
  ops.foldl (copStep s) st

/-- Rule `TypeckContext::finish`: consume the context, yielding the negation
of the failure flag. -/
def finishCtx (st : CtxState) : Bool :=
  !st.failed

/-- Whether a single operation sets the failure flag when run on a fresh
context. -/
def opFails (s : Services) (op : COp) : Bool :=
  (copStep s newCtx op).failed

/-- Whether the trace holds a diagnostic of severity error or above. -/
def errorDiagEmitted (st : CtxState) : Bool :=
  st.diags.any (fun d => d.severity.atLeastError)

section Arena

/-- The owned-type union passed to `TypeArena::alloc_owned` (from
`OwnedType` in `ty2`): nine structurally parameterized variants and the
three field-free singleton variants.  The payload types live in the
external `ty2` modules, so the embedding is generic over them, exactly as
the arena only moves them around. -/
inductive OwnedType (IB ISUB FB FSUB EB ESUB PB PSUB AC : Type) where
  | integerBasetype (t : IB)
  | integerSubtype (t : ISUB)
  | floatingBasetype (t : FB)
  | floatingSubtype (t : FSUB)
  | enumBasetype (t : EB)
  | enumSubtype (t : ESUB)
  | physicalBasetype (t : PB)
  | physicalSubtype (t : PSUB)
  | accessType (t : AC)
  | null
  | universalInteger
  | universalReal
deriving DecidableEq, Repr

/-- The backing storage of `TypeArena`: one growable store per
structurally parameterized variant, as laid out by `make_arenas!`. -/
structure TypeArena (IB ISUB FB FSUB EB ESUB PB PSUB AC : Type) where
  integer_basetype : List IB
  integer_subtype : List ISUB
  floating_basetype : List FB
  floating_subtype : List FSUB
  enum_basetype : List EB
  enum_subtype : List ESUB
  physical_basetype : List PB
  physical_subtype : List PSUB
  access : List AC
deriving DecidableEq, Repr

/-- A reference returned by the arena: either a position inside one of
the nine stores, or one of the three process-wide static instances
(`NullType`, `UniversalIntegerType`, `UniversalRealType`). -/
inductive TypeRef where
  | integerBasetypeAt (i : Nat)
  | integerSubtypeAt (i : Nat)
  | floatingBasetypeAt (i : Nat)
  | floatingSubtypeAt (i : Nat)
  | enumBasetypeAt (i : Nat)
  | enumSubtypeAt (i : Nat)
  | physicalBasetypeAt (i : Nat)
  | physicalSubtypeAt (i : Nat)
  | accessAt (i : Nat)
  | staticNull
  | staticUniversalInteger
  | staticUniversalReal
deriving DecidableEq, Repr

variable {IB ISUB FB FSUB EB ESUB PB PSUB AC : Type}

/-- Rule `TypeArena::alloc_owned`: the nine parameterized variants are stored
into their arena field and a reference to the stored node is returned;
the three singleton variants return the static reference without touching
the arena. -/
def alloc_owned (a : TypeArena IB ISUB FB FSUB EB ESUB PB PSUB AC) :
    OwnedType IB ISUB FB FSUB EB ESUB PB PSUB AC →
    TypeArena IB ISUB FB FSUB EB ESUB PB PSUB AC × TypeRef
  | OwnedType.integerBasetype t =>
    ({ a with integer_basetype := a.integer_basetype ++ [t] },
      TypeRef.integerBasetypeAt a.integer_basetype.length)
  | OwnedType.integerSubtype t =>
    ({ a with integer_subtype := a.integer_subtype ++ [t] },
      TypeRef.integerSubtypeAt a.integer_subtype.length)
  | OwnedType.floatingBasetype t =>
    ({ a with floating_basetype := a.floating_basetype ++ [t] },
      TypeRef.floatingBasetypeAt a.floating_basetype.length)
  | OwnedType.floatingSubtype t =>
    ({ a with floating_subtype := a.floating_subtype ++ [t] },
      TypeRef.floatingSubtypeAt a.floating_subtype.length)
  | OwnedType.enumBasetype t =>
    ({ a with enum_basetype := a.enum_basetype ++ [t] },
      TypeRef.enumBasetypeAt a.enum_basetype.length)
  | OwnedType.enumSubtype t =>
    ({ a with enum_subtype := a.enum_subtype ++ [t] },
      TypeRef.enumSubtypeAt a.enum_subtype.length)
  | OwnedType.physicalBasetype t =>
    ({ a with physical_basetype := a.physical_basetype ++ [t] },
      TypeRef.physicalBasetypeAt a.physical_basetype.length)
  | OwnedType.physicalSubtype t =>
    ({ a with physical_subtype := a.physical_subtype ++ [t] },
      TypeRef.physicalSubtypeAt a.physical_subtype.length)
  | OwnedType.accessType t =>
    ({ a with access := a.access ++ [t] }, TypeRef.accessAt a.access.length)
  | OwnedType.null => (a, TypeRef.staticNull)
  | OwnedType.universalInteger => (a, TypeRef.staticUniversalInteger)
  | OwnedType.universalReal => (a, TypeRef.staticUniversalReal)

/-- Dereference a type reference against an arena: a stored reference
reads the arena field it points into; a static reference designates the
corresponding process-wide singleton. -/
def arenaLookup (a : TypeArena IB ISUB FB FSUB EB ESUB PB PSUB AC) :
    TypeRef → Option (OwnedType IB ISUB FB FSUB EB ESUB PB PSUB AC)
  | TypeRef.integerBasetypeAt i => (a.integer_basetype[i]?).map OwnedType.integerBasetype
  | TypeRef.integerSubtypeAt i => (a.integer_subtype[i]?).map OwnedType.integerSubtype
  | TypeRef.floatingBasetypeAt i => (a.floating_basetype[i]?).map OwnedType.floatingBasetype
  | TypeRef.floatingSubtypeAt i => (a.floating_subtype[i]?).map OwnedType.floatingSubtype
  | TypeRef.enumBasetypeAt i => (a.enum_basetype[i]?).map OwnedType.enumBasetype
  | TypeRef.enumSubtypeAt i => (a.enum_subtype[i]?).map OwnedType.enumSubtype
  | TypeRef.physicalBasetypeAt i => (a.physical_basetype[i]?).map OwnedType.physicalBasetype
  | TypeRef.physicalSubtypeAt i => (a.physical_subtype[i]?).map OwnedType.physicalSubtype
  | TypeRef.accessAt i => (a.access[i]?).map OwnedType.accessType
  | TypeRef.staticNull => some OwnedType.null
  | TypeRef.staticUniversalInteger => some OwnedType.universalInteger
  | TypeRef.staticUniversalReal => some OwnedType.universalReal

/-- Total number of nodes physically stored in the arena. -/
def arenaSize (a : TypeArena IB ISUB FB FSUB EB ESUB PB PSUB AC) : Nat :=
  a.integer_basetype.length + a.integer_subtype.length + a.floating_basetype.length
    + a.floating_subtype.length + a.enum_basetype.length + a.enum_subtype.length
    + a.physical_basetype.length + a.physical_subtype.length + a.access.length

end Arena

/-- Whether a service result is a failure. -/
def exceptFailed {α : Type} : Except Unit α → Bool
  | Except.error _ => true
  | Except.ok _ => false

/-- Whether two constants match the `(Const::Int, Const::Int)` pattern of
the `Range2` arm and of `make_range_ty`. -/
def bothInt : Const → Const → Bool
  | Const.int _, Const.int _ => true
  | _, _ => false

/-- Whether two constants match the `(Const::Float, Const::Float)` pattern
of `make_range_ty`. -/
def bothFloat : Const → Const → Bool
  | Const.float, Const.float => true
  | _, _ => false

/-- A service environment in which every lookup fails; concrete
environments below override the fields they need. -/
def noServices : Services :=
  { tyOf := fun _ => Except.error ()
    constOf := fun _ => Except.error ()
    typeContext := fun _ => Except.error ()
    hirExpr := fun _ => Except.error ()
    hirArrayIndex := fun _ => Except.error ()
    hirSigAssign := fun _ => Except.error () }

/-- A type service with a cyclic `Named` chain: node 0 resolves to
`Named(0)`. -/
def cyclicServices : Services :=
  { noServices with tyOf := fun _ => Except.ok (Ty.named 0) }

/-- Services for the C1 witness: node 0 is an integer base type 0 to 255,
expression 1 evaluates to the range 10 to 20, expressions 2 and 3 to the
integer constants 10 and 20. -/
def c1Services : Services :=
  { noServices with
    tyOf := fun n => if n = 0 then Except.ok (Ty.int ⟨Dir.to, 0, 255⟩) else Except.error ()
    constOf := fun n =>
      if n = 1 then Except.ok (Const.intRange ⟨Dir.to, ⟨10⟩, ⟨20⟩⟩)
      else if n = 2 then Except.ok (Const.int ⟨10⟩)
      else if n = 3 then Except.ok (Const.int ⟨20⟩)
      else Except.error () }

/-- Services for the C2 counterexample: index node 0 is a subtype index
whose subtype 5 has no computable type, index node 1 is an unbounded index
over node 6, whose type is available. -/
def c2CexServices : Services :=
  { noServices with
    tyOf := fun n => if n = 6 then Except.ok (Ty.int ⟨Dir.to, 0, 7⟩) else Except.error ()
    hirArrayIndex := fun n =>
      if n = 0 then Except.ok (ArrayTypeIndexHir.subtypeInd 5)
      else if n = 1 then Except.ok (ArrayTypeIndexHir.unbounded 6)
      else Except.error () }

/-- Services for the C2 witness: index node 0 has no hir, index node 1 is
an unbounded index over node 6, whose type is available. -/
def c2WitServices : Services :=
  { noServices with
    tyOf := fun n => if n = 6 then Except.ok (Ty.int ⟨Dir.to, 0, 7⟩) else Except.error ()
    hirArrayIndex := fun n =>
      if n = 1 then Except.ok (ArrayTypeIndexHir.unbounded 6) else Except.error () }

/-- Services for the C4 counterexample and witness: node 0 is an integer
base type, expression 1 evaluates to the integer constant 5 and every
other expression to a float constant. -/
def c4Services : Services :=
  { noServices with
    tyOf := fun _ => Except.ok (Ty.int ⟨Dir.to, 0, 255⟩)
    constOf := fun n => if n = 1 then Except.ok (Const.int ⟨5⟩) else Except.ok Const.float }

/-- Services for the C7 witness: expression 0 is an integer literal with
an attached type while its surrounding context is not even determinable
(the type-context service fails). -/
def c7Services : Services :=
  { noServices with
    hirExpr := fun n =>
      if n = 0 then Except.ok ⟨"42", ExprData.integerLiteral ⟨some (Ty.int ⟨Dir.to, 0, 100⟩)⟩⟩
      else Except.error () }

/-- Services for the C8 counterexample: statement 0 is a conditional
waveform assignment to signal 2 (an integer signal) whose single waveform
element has value expression 3 of a mismatching enumeration type. -/
def c8CexServices : Services :=
  { noServices with
    tyOf := fun n =>
      if n = 2 then Except.ok (Ty.int ⟨Dir.to, 0, 255⟩)
      else if n = 3 then Except.ok (Ty.enumTy 7)
      else Except.error ()
    hirSigAssign := fun n =>
      if n = 0 then
        Except.ok ⟨SigAssignTarget.name 2,
          SigAssignKind.condWave DelayMechanism.stub ⟨[([⟨some 3, none⟩], 4)]⟩⟩
      else Except.error () }

/-- Services for the C8 witness: statement 1 is a plain waveform
assignment to signal 2 with one waveform element valued by expression 3 of
a mismatching enumeration type. -/
def c8WitServices : Services :=
  { noServices with
    tyOf := fun n =>
      if n = 2 then Except.ok (Ty.int ⟨Dir.to, 0, 255⟩)
      else if n = 3 then Except.ok (Ty.enumTy 7)
      else Except.error ()
    hirSigAssign := fun n =>
      if n = 1 then
        Except.ok ⟨SigAssignTarget.name 2,
          SigAssignKind.simpleWave DelayMechanism.stub [⟨some 3, none⟩]⟩
      else Except.error () }

/-- C6: for every subtype indication with no constraint, the computed type
is `Named(type-mark-reference)`.  The equation holds for every service
environment and every fuel, in particular for environments in which the
type mark resolves to something else or does not resolve at all, so the
alias is returned without being dereferenced. -/
theorem c6_no_constraint_yields_named (s : Services) (fuel : Nat) (tm : Nat) :
    subtypeIndType s fuel ⟨tm, none⟩ = some (Except.ok (Ty.named tm), []) :=
  rfl

/-- C5: under the cyclic chain in which node 0 resolves to `Named(0)`,
`deref_named_type` exhausts every fuel bound on the input `Named(0)`: the
unguarded recursion of the source never reaches a result, neither a value
nor an error, contradicting the requirement that a cyclic chain fail or
report an internal error instead of hanging. -/
theorem c5_deref_cyclic_diverges :
    ∀ fuel : Nat, derefNamedType cyclicServices fuel (Ty.named 0) = none := by
  intro fuel
  induction fuel with
  | zero => rfl
  | succ n ih => simpa [derefNamedType, cyclicServices, noServices] using ih

/-- C9: `alloc_owned` maps each of the three singleton variants to the
corresponding static reference while leaving the arena untouched, so
repeated allocations of the same singleton variant return the same
reference; each of the nine parameterized variants is physically stored
(the arena grows by exactly one node) and the returned reference
dereferences to the stored node. -/
theorem c9_alloc_owned_singletons_and_storage
    {IB ISUB FB FSUB EB ESUB PB PSUB AC : Type}
    (a b : TypeArena IB ISUB FB FSUB EB ESUB PB PSUB AC)
    (t1 : IB) (t2 : ISUB) (t3 : FB) (t4 : FSUB) (t5 : EB) (t6 : ESUB)
    (t7 : PB) (t8 : PSUB) (t9 : AC) :
    (alloc_owned a OwnedType.null = (a, TypeRef.staticNull)
      ∧ alloc_owned a OwnedType.universalInteger = (a, TypeRef.staticUniversalInteger)
      ∧ alloc_owned a OwnedType.universalReal = (a, TypeRef.staticUniversalReal))
    ∧ ((alloc_owned a OwnedType.null).2 = (alloc_owned b OwnedType.null).2
      ∧ (alloc_owned a OwnedType.universalInteger).2
          = (alloc_owned b OwnedType.universalInteger).2
      ∧ (alloc_owned a OwnedType.universalReal).2
          = (alloc_owned b OwnedType.universalReal).2)
    ∧ (arenaLookup (alloc_owned a (OwnedType.integerBasetype t1)).1
          (alloc_owned a (OwnedType.integerBasetype t1)).2
            = some (OwnedType.integerBasetype t1)
      ∧ arenaLookup (alloc_owned a (OwnedType.integerSubtype t2)).1
          (alloc_owned a (OwnedType.integerSubtype t2)).2
            = some (OwnedType.integerSubtype t2)
      ∧ arenaLookup (alloc_owned a (OwnedType.floatingBasetype t3)).1
          (alloc_owned a (OwnedType.floatingBasetype t3)).2
            = some (OwnedType.floatingBasetype t3)
      ∧ arenaLookup (alloc_owned a (OwnedType.floatingSubtype t4)).1
          (alloc_owned a (OwnedType.floatingSubtype t4)).2
            = some (OwnedType.floatingSubtype t4)
      ∧ arenaLookup (alloc_owned a (OwnedType.enumBasetype t5)).1
          (alloc_owned a (OwnedType.enumBasetype t5)).2
            = some (OwnedType.enumBasetype t5)
      ∧ arenaLookup (alloc_owned a (OwnedType.enumSubtype t6)).1
          (alloc_owned a (OwnedType.enumSubtype t6)).2
            = some (OwnedType.enumSubtype t6)
      ∧ arenaLookup (alloc_owned a (OwnedType.physicalBasetype t7)).1
          (alloc_owned a (OwnedType.physicalBasetype t7)).2
            = some (OwnedType.physicalBasetype t7)
      ∧ arenaLookup (alloc_owned a (OwnedType.physicalSubtype t8)).1
          (alloc_owned a (OwnedType.physicalSubtype t8)).2
            = some (OwnedType.physicalSubtype t8)
      ∧ arenaLookup (alloc_owned a (OwnedType.accessType t9)).1
          (alloc_owned a (OwnedType.accessType t9)).2
            = some (OwnedType.accessType t9))
    ∧ (arenaSize (alloc_owned a (OwnedType.integerBasetype t1)).1 = arenaSize a + 1
      ∧ arenaSize (alloc_owned a (OwnedType.integerSubtype t2)).1 = arenaSize a + 1
      ∧ arenaSize (alloc_owned a (OwnedType.floatingBasetype t3)).1 = arenaSize a + 1
      ∧ arenaSize (alloc_owned a (OwnedType.floatingSubtype t4)).1 = arenaSize a + 1
      ∧ arenaSize (alloc_owned a (OwnedType.enumBasetype t5)).1 = arenaSize a + 1
      ∧ arenaSize (alloc_owned a (OwnedType.enumSubtype t6)).1 = arenaSize a + 1
      ∧ arenaSize (alloc_owned a (OwnedType.physicalBasetype t7)).1 = arenaSize a + 1
      ∧ arenaSize (alloc_owned a (OwnedType.physicalSubtype t8)).1 = arenaSize a + 1
      ∧ arenaSize (alloc_owned a (OwnedType.accessType t9)).1 = arenaSize a + 1) := by
  refine ⟨⟨rfl, rfl, rfl⟩, ⟨rfl, rfl, rfl⟩, ⟨?_, ?_, ?_, ?_, ?_, ?_, ?_, ?_, ?_⟩,
    ⟨?_, ?_, ?_, ?_, ?_, ?_, ?_, ?_, ?_⟩⟩ <;>
    simp [alloc_owned, arenaLookup, arenaSize, List.getElem?_concat_length] <;> omega

/-- C1: for a range constraint (in either the `Range` or the `Range2`
form) over a type mark whose dereferenced type is an integer type with
base bounds `A` and `B`, if the constraint bounds `lo` and `hi` satisfy
`A <= lo`, `lo <= hi`, `hi <= B` and the direction matches the base,
construction succeeds with an integer subtype carrying the narrowed
bounds; if `lo < A`, or `hi > B`, or the direction differs, construction
fails and emits the is-not-a-subrange diagnostic naming both ranges. -/
theorem c1_range_constraint_subrange (s : Services) (fuel : Nat)
    (tm exprId lbId rbId : Nat) (t0 : Ty) (d d2 : Dir) (A B lo hi : Int)
    (hty : s.tyOf tm = Except.ok t0)
    (hderef : derefNamedType s fuel t0 = some (Except.ok (Ty.int ⟨d, A, B⟩))) :
    ((s.constOf exprId = Except.ok (Const.intRange ⟨d2, ⟨lo⟩, ⟨hi⟩⟩)) →
      ((d2 = d → A ≤ lo → lo ≤ hi → hi ≤ B →
        subtypeIndType s fuel ⟨tm, some (Constraint.range exprId)⟩
          = some (Except.ok (Ty.int ⟨d, lo, hi⟩), []))
      ∧ (d2 ≠ d ∨ lo < A ∨ B < hi →
        subtypeIndType s fuel ⟨tm, some (Constraint.range exprId)⟩
          = some (Except.error (),
              [Diag.mkError (msgNotSubrangeRange ⟨d2, ⟨lo⟩, ⟨hi⟩⟩ ⟨d, A, B⟩)]))))
    ∧ ((s.constOf lbId = Except.ok (Const.int ⟨lo⟩)) →
       (s.constOf rbId = Except.ok (Const.int ⟨hi⟩)) →
      ((d2 = d → A ≤ lo → lo ≤ hi → hi ≤ B →
        subtypeIndType s fuel ⟨tm, some (Constraint.range2 d2 lbId rbId)⟩
          = some (Except.ok (Ty.int ⟨d, lo, hi⟩), []))
      ∧ (d2 ≠ d ∨ lo < A ∨ B < hi →
        subtypeIndType s fuel ⟨tm, some (Constraint.range2 d2 lbId rbId)⟩
          = some (Except.error (),
              [Diag.mkError (msgNotSubrangeRange2 ⟨lo⟩ d2 ⟨hi⟩ ⟨d, A, B⟩)])))) := by
  constructor
  · intro hconst
    constructor
    · intro hd hA hlh hB
      subst hd
      simp only [subtypeIndType, hty, hderef, hconst]
      rw [if_neg]
      · rfl
      · push_neg
        exact ⟨rfl, by exact hA, by exact hB⟩
    · intro hbad
      simp only [subtypeIndType, hty, hderef, hconst]
      rw [if_pos]
      rcases hbad with hne | hlt | hgt
      · exact Or.inl (fun he => hne he.symm)
      · exact Or.inr (Or.inl (by exact hlt))
      · exact Or.inr (Or.inr (by exact hgt))
  · intro hlb hrb
    constructor
    · intro hd hA hlh hB
      subst hd
      simp only [subtypeIndType, hlb, hrb, hty, hderef]
      rw [if_neg]
      · rfl
      · push_neg
        exact ⟨rfl, by exact hA, by exact hB⟩
    · intro hbad
      simp only [subtypeIndType, hlb, hrb, hty, hderef]
      rw [if_pos]
      rcases hbad with hne | hlt | hgt
      · exact Or.inl (fun he => hne he.symm)
      · exact Or.inr (Or.inl (by exact hlt))
      · exact Or.inr (Or.inr (by exact hgt))

/-- C1 witness: in the concrete environment where node 0 is the integer
base type 0 to 255, constraining it by the constant range 10 to 20
succeeds with the narrowed integer subtype. -/
theorem c1_witness :
    subtypeIndType c1Services 1 ⟨0, some (Constraint.range 1)⟩
      = some (Except.ok (Ty.int ⟨Dir.to, 10, 20⟩), []) :=
  ((c1_range_constraint_subrange c1Services 1 0 1 2 3 (Ty.int ⟨Dir.to, 0, 255⟩)
      Dir.to Dir.to 0 255 10 20 rfl rfl).1 rfl).1 rfl (by decide) (by decide) (by decide)

/-- C4 counterexample: over the integer base type at node 0, the `Range2`
constraint whose bounds evaluate to the integer 5 and a float constant
fails, but the diagnostic it emits is the non-integer-range message, not
the bound-kind mismatch message that the shared range builder emits for
the same pair of constants. -/
theorem c4_counterexample :
    (subtypeIndType c4Services 1 ⟨0, some (Constraint.range2 Dir.to 1 2)⟩
      = some (Except.error (),
          [Diag.mkError (msgNonIntegerRange (Const.int ⟨5⟩) Dir.to Const.float)]))
    ∧ make_range_ty c4Services Dir.to 1 2
      = (Except.error (), [Diag.mkError msgBoundsNotSameType])
    ∧ msgNonIntegerRange (Const.int ⟨5⟩) Dir.to Const.float ≠ msgBoundsNotSameType := by
  refine ⟨rfl, rfl, by decide⟩

/-- C4 amended: when the two evaluated bound constants of a `Range2`
constraint over an integer type are not both integer constants, the
subtype-indication rule fails emitting the non-integer-range message
naming both bounds, while the shared range type builder emits the
bound-kind mismatch message for the same non-matching pair, unless both
bounds are float constants. -/
theorem c4_amended (s : Services) (fuel : Nat) (tm lbId rbId : Nat)
    (t0 : Ty) (innerI : IntTy) (dir : Dir) (lb rb : Const)
    (hty : s.tyOf tm = Except.ok t0)
    (hderef : derefNamedType s fuel t0 = some (Except.ok (Ty.int innerI)))
    (hlb : s.constOf lbId = Except.ok lb)
    (hrb : s.constOf rbId = Except.ok rb)
    (hmix : bothInt lb rb = false) :
    subtypeIndType s fuel ⟨tm, some (Constraint.range2 dir lbId rbId)⟩
      = some (Except.error (), [Diag.mkError (msgNonIntegerRange lb dir rb)])
    ∧ (bothFloat lb rb = false →
      make_range_ty s dir lbId rbId
        = (Except.error (), [Diag.mkError msgBoundsNotSameType])) := by
  constructor
  · simp only [subtypeIndType, hlb, hrb, hty, hderef]
    cases lb <;> cases rb <;> simp_all [bothInt]
  · intro hff
    simp only [make_range_ty, hlb, hrb]
    cases lb <;> cases rb <;> simp_all [bothInt, bothFloat]

/-- C4 witness: the amended statement applied to the concrete environment
of the counterexample. -/
theorem c4_witness :
    subtypeIndType c4Services 1 ⟨0, some (Constraint.range2 Dir.downto 1 2)⟩
      = some (Except.error (),
          [Diag.mkError (msgNonIntegerRange (Const.int ⟨5⟩) Dir.downto Const.float)])
    ∧ make_range_ty c4Services Dir.downto 1 2
      = (Except.error (), [Diag.mkError msgBoundsNotSameType]) := by
  have h := c4_amended c4Services 1 0 1 2 (Ty.int ⟨Dir.to, 0, 255⟩) ⟨Dir.to, 0, 255⟩
    Dir.downto (Const.int ⟨5⟩) Const.float rfl rfl rfl rfl rfl
  exact ⟨h.1, h.2 rfl⟩

/-- Helper for the C2 analysis: when every index whose hir lookup succeeds
also resolves, the index loop performs the hir lookup of every index id in
order, and returns the collected indices together with a flag recording
whether any hir lookup failed. -/
theorem arrayIndicesLoop_attempts_all (s : Services) (ids : List Nat) :
    ∀ (hadFails : Bool) (acc : List (Bool × Ty)),
    (∀ id ∈ ids, ∀ hr, s.hirArrayIndex id = Except.ok hr →
      exceptFailed (resolveArrayIndex s hr).1 = false) →
    ∃ acc2 ds, arrayIndicesLoop s ids hadFails acc
      = (Except.ok (acc2,
            hadFails || ids.any (fun id => exceptFailed (s.hirArrayIndex id))),
          ds, ids) := by
  induction ids with
  | nil =>
    intro hadFails acc _
    exact ⟨acc, [], by simp [arrayIndicesLoop]⟩
  | cons id rest ih =>
    intro hadFails acc h
    cases hhir : s.hirArrayIndex id with
    | error e =>
      obtain ⟨acc2, ds, heq⟩ :=
        ih true acc (fun i hi hr hok => h i (List.mem_cons_of_mem _ hi) hr hok)
      refine ⟨acc2, ds, ?_⟩
      simp [arrayIndicesLoop, hhir, heq, exceptFailed]
    | ok hr =>
      have hf := h id (List.mem_cons_self _ _) hr hhir
      rcases hres : resolveArrayIndex s hr with ⟨r, ds0⟩
      rw [hres] at hf
      cases r with
      | error e => simp [exceptFailed] at hf
      | ok v =>
        obtain ⟨acc2, ds, heq⟩ :=
          ih hadFails (acc ++ [v]) (fun i hi hr2 hok => h i (List.mem_cons_of_mem _ hi) hr2 hok)
        refine ⟨acc2, ds0 ++ ds, ?_⟩
        simp [arrayIndicesLoop, hhir, hres, heq, exceptFailed]

/-- C2 counterexample: with index node 0 a subtype index whose inner type
lookup fails and index node 1 a resolvable unbounded index, the array
rule aborts at index 0 via the propagated failure: its attempt trace is
`[0]`, so index 1 is never attempted, although the claim requires every
index position to be attempted after a failure. -/
theorem c2_counterexample :
    typeDeclArray c2CexServices [0, 1] 9 = (Except.error (), [], [0])
    ∧ ¬ (1 ∈ (typeDeclArray c2CexServices [0, 1] 9).2.2) := by
  refine ⟨rfl, by decide⟩

/-- C2 amended: hir-lookup failures of index nodes are collected across
all indices — every index id is attempted (its hir lookup is performed)
and, when at least one lookup failed, failure is returned only after all
lookups were attempted — provided no index fails during its inner type
resolution; an inner resolution failure instead aborts the loop at once
via the propagated error. -/
theorem c2_amended (s : Services) (ids : List Nat) (elemTyId : Nat)
    (h : ∀ id ∈ ids, ∀ hr, s.hirArrayIndex id = Except.ok hr →
      exceptFailed (resolveArrayIndex s hr).1 = false) :
    (typeDeclArray s ids elemTyId).2.2 = ids
    ∧ (ids.any (fun id => exceptFailed (s.hirArrayIndex id)) = true →
        (typeDeclArray s ids elemTyId).1 = Except.error ()) := by
  obtain ⟨acc2, ds, heq⟩ := arrayIndicesLoop_attempts_all s ids false [] h
  constructor
  · simp only [typeDeclArray, heq, Bool.false_or]
    cases hany : ids.any (fun id => exceptFailed (s.hirArrayIndex id)) with
    | true => simp
    | false =>
      cases s.tyOf elemTyId with
      | error e => simp
      | ok et => simp
  · intro hany
    simp [typeDeclArray, heq, hany]

/-- C2 witness: with index node 0 lacking a hir and index node 1 a
resolvable unbounded index, both indices are attempted and failure is
returned after both. -/
theorem c2_witness :
    (typeDeclArray c2WitServices [0, 1] 9).2.2 = [0, 1]
    ∧ (typeDeclArray c2WitServices [0, 1] 9).1 = Except.error () := by
  have h := c2_amended c2WitServices [0, 1] 9 ?_
  · exact ⟨h.1, h.2 (by decide)⟩
  · intro id hid hr hok
    have hid2 : id = 0 ∨ id = 1 := by simpa using hid
    rcases hid2 with h0 | h1
    · subst h0
      simp [c2WitServices, noServices] at hok
    · subst h1
      have : ArrayTypeIndexHir.unbounded 6 = hr := by
        simpa [c2WitServices, noServices] using hok
      subst this
      decide

/-- C7: an integer literal with an attached type returns it for every
service environment, so the expected-type context is never consulted (the
environment is arbitrary, including ones whose context lookup fails or
supplies an incompatible type); a literal without an attached type adopts
a contextual type that dereferences to an integer type; when the context
supplies no type, or a type that dereferences to a non-integer type, the
rule fails with the cannot-infer diagnostic quoting the source text. -/
theorem c7_integer_literal_typing (s : Services) (fuel : Nat) (id : Nat)
    (h : ExprHir) (c : IntLit)
    (hhir : s.hirExpr id = Except.ok h)
    (hdata : h.data = ExprData.integerLiteral c) :
    ((∀ t, c.ty = some t → exprType s fuel id = some (Except.ok t, []))
    ∧ (∀ t it, c.ty = none → s.typeContext id = Except.ok (some t) →
        derefNamedType s fuel t = some (Except.ok (Ty.int it)) →
        exprType s fuel id = some (Except.ok t, []))
    ∧ (c.ty = none → s.typeContext id = Except.ok none →
        exprType s fuel id
          = some (Except.error (), [Diag.mkError (msgCannotInfer h.spanText)]))
    ∧ (∀ t u, c.ty = none → s.typeContext id = Except.ok (some t) →
        derefNamedType s fuel t = some (Except.ok u) → (∀ it, u ≠ Ty.int it) →
        exprType s fuel id
          = some (Except.error (), [Diag.mkError (msgCannotInfer h.spanText)]))) := by
  refine ⟨?_, ?_, ?_, ?_⟩
  · intro t hatt
    simp [exprType, hhir, hdata, hatt]
  · intro t it hatt hctx hder
    simp [exprType, hhir, hdata, hatt, hctx, hder]
  · intro hatt hctx
    simp [exprType, hhir, hdata, hatt, hctx]
  · intro t u hatt hctx hder hnint
    cases u with
    | int it => exact absurd rfl (hnint it)
    | named n => simp [exprType, hhir, hdata, hatt, hctx, hder]
    | enumTy d => simp [exprType, hhir, hdata, hatt, hctx, hder]
    | nullTy => simp [exprType, hhir, hdata, hatt, hctx, hder]
    | universalInt => simp [exprType, hhir, hdata, hatt, hctx, hder]
    | access inner => simp [exprType, hhir, hdata, hatt, hctx, hder]
    | array idx e => simp [exprType, hhir, hdata, hatt, hctx, hder]

/-- C7 witness: expression 0 carries the attached type 0 to 100 and is
typed with it even though the surrounding context is not determinable
(the context service of the environment fails on every node). -/
theorem c7_witness :
    exprType c7Services 1 0 = some (Except.ok (Ty.int ⟨Dir.to, 0, 100⟩), []) :=
  (c7_integer_literal_typing c7Services 1 0
      ⟨"42", ExprData.integerLiteral ⟨some (Ty.int ⟨Dir.to, 0, 100⟩)⟩⟩
      ⟨some (Ty.int ⟨Dir.to, 0, 100⟩)⟩ rfl rfl).1 (Ty.int ⟨Dir.to, 0, 100⟩) rfl

/-- Unfolding of a waveform check over a cons cell. -/
theorem typeckWaveform_cons (s : Services) (st : CtxState) (e : WaveElem)
    (w : List WaveElem) (exp : Ty) :
    typeckWaveform s st (e :: w) exp = typeckWaveform s (typeckWaveElem s st e exp) w exp :=
  rfl

/-- The failure flag after `typeck_node` is the old flag joined with the
effect the same check has on a fresh context. -/
theorem typeckNodeCtx_failed_eq (s : Services) (st : CtxState) (v : Nat) (exp : Ty) :
    (typeckNodeCtx s st v exp).failed
      = (st.failed || (typeckNodeCtx s newCtx v exp).failed) := by
  cases h : s.tyOf v with
  | error e => simp [typeckNodeCtx, h, newCtx]
  | ok act =>
    by_cases hne : act = exp
    · simp [typeckNodeCtx, h, hne, newCtx]
    · simp [typeckNodeCtx, h, hne, emitCtx, newCtx, Diag.mkError,
        Severity.atLeastError, Severity.level]

/-- The failure flag after a waveform-element check is the old flag joined
with the effect of the same check on a fresh context. -/
theorem typeckWaveElem_failed_eq (s : Services) (st : CtxState) (e : WaveElem) (exp : Ty) :
    (typeckWaveElem s st e exp).failed
      = (st.failed || (typeckWaveElem s newCtx e exp).failed) := by
  cases hv : e.value with
  | none => simp [typeckWaveElem, hv, newCtx]
  | some v => simp [typeckWaveElem, hv]; exact typeckNodeCtx_failed_eq s st v exp

/-- The failure flag after a waveform check is the old flag joined with
the effect of the same check on a fresh context. -/
theorem typeckWaveform_failed_eq (s : Services) (w : List WaveElem) (exp : Ty) :
    ∀ st : CtxState, (typeckWaveform s st w exp).failed
      = (st.failed || (typeckWaveform s newCtx w exp).failed) := by
  induction w with
  | nil => intro st; simp [typeckWaveform, newCtx]
  | cons e w ih =>
    intro st
    rw [typeckWaveform_cons, typeckWaveform_cons, ih (typeckWaveElem s st e exp),
      ih (typeckWaveElem s newCtx e exp), typeckWaveElem_failed_eq s st e exp]
    simp [newCtx, Bool.or_assoc]

/-- The failure flag after a signal-assignment check is the old flag
joined with the effect of the same check on a fresh context. -/
theorem sigAssignTypeck_failed_eq (s : Services) (st : CtxState) (id : Nat) :
    (sigAssignTypeck s st id).failed
      = (st.failed || (sigAssignTypeck s newCtx id).failed) := by
  cases hh : s.hirSigAssign id with
  | error e => simp [sigAssignTypeck, hh, newCtx]
  | ok h =>
    obtain ⟨tgt, kind⟩ := h
    cases tgt with
    | aggregate => simp [sigAssignTypeck, hh, emitCtx, newCtx, Diag.mkBug,
        Severity.atLeastError, Severity.level]
    | name sig =>
      cases hty : s.tyOf sig with
      | error e => simp [sigAssignTypeck, hh, hty, newCtx]
      | ok lhsTy =>
        cases kind with
        | simpleWave dm wave =>
          simp only [sigAssignTypeck, hh, hty, typeckDelayMechanism]
          exact typeckWaveform_failed_eq s wave lhsTy st
        | simpleForce e => simp [sigAssignTypeck, hh, hty, newCtx]
        | simpleRelease => simp [sigAssignTypeck, hh, hty, newCtx]
        | condWave dm c => simp [sigAssignTypeck, hh, hty, typeckDelayMechanism, newCtx]
        | condForce c => simp [sigAssignTypeck, hh, hty, newCtx]
        | selWave dm c => simp [sigAssignTypeck, hh, hty, typeckDelayMechanism, newCtx]
        | selForce c => simp [sigAssignTypeck, hh, hty, newCtx]

/-- The failure flag after one context operation is the old flag joined
with `opFails`. -/
theorem copStep_failed_eq (s : Services) (st : CtxState) (op : COp) :
    (copStep s st op).failed = (st.failed || opFails s op) := by
  cases op with
  | emitOp d => simp [copStep, opFails, emitCtx, newCtx]
  | nodeOp v exp => exact typeckNodeCtx_failed_eq s st v exp
  | makeOp res => cases res <;> simp [copStep, opFails, newCtx]
  | delayOp => simp [copStep, opFails, typeckDelayMechanism, newCtx]
  | waveOp w exp => exact typeckWaveform_failed_eq s w exp st
  | sigAssignOp id => exact sigAssignTypeck_failed_eq s st id

/-- The failure flag after a whole session is the initial flag joined with
the flag effects of the individual operations. -/
theorem runOps_failed_eq (s : Services) (ops : List COp) :
    ∀ st : CtxState, (runOps s st ops).failed = (st.failed || ops.any (opFails s)) := by
  induction ops with
  | nil => intro st; simp [runOps]
  | cons op ops ih =>
    intro st
    show (runOps s (copStep s st op) ops).failed = _
    rw [ih (copStep s st op), copStep_failed_eq]
    simp [Bool.or_assoc]

/-- A context whose trace holds an error-or-above diagnostic has its
failure flag set: `typeck_node` preserves this. -/
theorem inv_typeckNodeCtx (s : Services) (st : CtxState) (v : Nat) (exp : Ty)
    (hinv : errorDiagEmitted st = true → st.failed = true) :
    errorDiagEmitted (typeckNodeCtx s st v exp) = true
      → (typeckNodeCtx s st v exp).failed = true := by
  cases h : s.tyOf v with
  | error e => intro _; simp [typeckNodeCtx, h]
  | ok act =>
    by_cases hne : act = exp
    · simpa [typeckNodeCtx, h, hne] using hinv
    · intro _
      simp [typeckNodeCtx, h, hne, emitCtx, Diag.mkError, Severity.atLeastError, Severity.level]

/-- The error-diagnostic invariant is preserved by a waveform-element
check. -/
theorem inv_typeckWaveElem (s : Services) (st : CtxState) (e : WaveElem) (exp : Ty)
    (hinv : errorDiagEmitted st = true → st.failed = true) :
    errorDiagEmitted (typeckWaveElem s st e exp) = true
      → (typeckWaveElem s st e exp).failed = true := by
  cases hv : e.value with
  | none => simpa [typeckWaveElem, hv] using hinv
  | some v => simpa [typeckWaveElem, hv] using inv_typeckNodeCtx s st v exp hinv

/-- The error-diagnostic invariant is preserved by a waveform check. -/
theorem inv_typeckWaveform (s : Services) (w : List WaveElem) (exp : Ty) :
    ∀ st : CtxState, (errorDiagEmitted st = true → st.failed = true) →
    errorDiagEmitted (typeckWaveform s st w exp) = true
      → (typeckWaveform s st w exp).failed = true := by
  induction w with
  | nil => intro st hinv; simpa [typeckWaveform] using hinv
  | cons e w ih =>
    intro st hinv
    rw [typeckWaveform_cons]
    exact ih (typeckWaveElem s st e exp) (inv_typeckWaveElem s st e exp hinv)

/-- The error-diagnostic invariant is preserved by a signal-assignment
check. -/
theorem inv_sigAssignTypeck (s : Services) (st : CtxState) (id : Nat)
    (hinv : errorDiagEmitted st = true → st.failed = true) :
    errorDiagEmitted (sigAssignTypeck s st id) = true
      → (sigAssignTypeck s st id).failed = true := by
  cases hh : s.hirSigAssign id with
  | error e => simpa [sigAssignTypeck, hh] using hinv
  | ok h =>
    obtain ⟨tgt, kind⟩ := h
    cases tgt with
    | aggregate =>
      intro _
      simp [sigAssignTypeck, hh, emitCtx, Diag.mkBug, Severity.atLeastError, Severity.level]
    | name sig =>
      cases hty : s.tyOf sig with
      | error e => simpa [sigAssignTypeck, hh, hty] using hinv
      | ok lhsTy =>
        cases kind with
        | simpleWave dm wave =>
          simpa [sigAssignTypeck, hh, hty, typeckDelayMechanism] using
            inv_typeckWaveform s wave lhsTy st hinv
        | simpleForce e => simpa [sigAssignTypeck, hh, hty] using hinv
        | simpleRelease => simpa [sigAssignTypeck, hh, hty] using hinv
        | condWave dm c => simpa [sigAssignTypeck, hh, hty, typeckDelayMechanism] using hinv
        | condForce c => simpa [sigAssignTypeck, hh, hty] using hinv
        | selWave dm c => simpa [sigAssignTypeck, hh, hty, typeckDelayMechanism] using hinv
        | selForce c => simpa [sigAssignTypeck, hh, hty] using hinv

/-- The error-diagnostic invariant is preserved by every context
operation. -/
theorem inv_copStep (s : Services) (st : CtxState) (op : COp)
    (hinv : errorDiagEmitted st = true → st.failed = true) :
    errorDiagEmitted (copStep s st op) = true → (copStep s st op).failed = true := by
  cases op with
  | emitOp d =>
    intro hd
    simp only [copStep, emitCtx, errorDiagEmitted, List.any_append, List.any_cons,
      List.any_nil, Bool.or_false] at hd ⊢
    rcases Bool.or_eq_true_iff.mp hd with h1 | h2
    · simp [hinv h1]
    · simp [h2]
  | nodeOp v exp => exact inv_typeckNodeCtx s st v exp hinv
  | makeOp res => cases res with
    | error e => intro _; simp [copStep]
    | ok t => simpa [copStep] using hinv
  | delayOp => simpa [copStep, typeckDelayMechanism] using hinv
  | waveOp w exp => exact inv_typeckWaveform s w exp st hinv
  | sigAssignOp id => exact inv_sigAssignTypeck s st id hinv

/-- The error-diagnostic invariant is preserved by a whole session. -/
theorem inv_runOps (s : Services) (ops : List COp) :
    ∀ st : CtxState, (errorDiagEmitted st = true → st.failed = true) →
    errorDiagEmitted (runOps s st ops) = true → (runOps s st ops).failed = true := by
  induction ops with
  | nil => intro st hinv; exact hinv
  | cons op ops ih =>
    intro st hinv
    exact ih (copStep s st op) (inv_copStep s st op hinv)

/-- C10: the failure flag of the Checking Context is monotone — no
operation clears it: one step started with the flag set keeps it set, and
once any state of a session has the flag set, `finish` returns false no
matter how many further operations succeed. -/
theorem c10_failure_flag_monotone (s : Services) (st : CtxState) :
    (∀ op : COp, st.failed = true → (copStep s st op).failed = true)
    ∧ (∀ ops : List COp, st.failed = true → finishCtx (runOps s st ops) = false) := by
  constructor
  · intro op hf
    rw [copStep_failed_eq, hf]
    simp
  · intro ops hf
    rw [finishCtx, runOps_failed_eq s ops st, hf]
    simp

/-- C10 witness: a context whose flag is set stays failed across a session
of succeeding operations. -/
theorem c10_witness :
    finishCtx (runOps noServices ⟨true, []⟩
      [COp.makeOp (Except.ok Ty.nullTy), COp.delayOp]) = false :=
  (c10_failure_flag_monotone noServices ⟨true, []⟩).2
    [COp.makeOp (Except.ok Ty.nullTy), COp.delayOp] rfl

/-- C3 counterexample: a session whose single operation is a blanket
`typeck` dispatch over a failed type computation ends with `finish` false
although no diagnostic at all — in particular none of severity error or
above — was emitted through the context. -/
theorem c3_counterexample :
    finishCtx (runOps noServices newCtx [COp.makeOp (Except.error ())]) = false
    ∧ (runOps noServices newCtx [COp.makeOp (Except.error ())]).diags = [] := by
  exact ⟨rfl, rfl⟩

/-- C3 amended: the boolean yielded by `finish` is true iff no operation
of the session set the failure flag; an error-or-above diagnostic emitted
through the context always sets the flag, so it forces false, but the
converse fails because a failed type computation in `typeck_node` or in
the blanket `typeck` dispatch sets the flag without emitting anything
through the context. -/
theorem c3_finish_characterization (s : Services) (ops : List COp) :
    (finishCtx (runOps s newCtx ops) = true ↔ ops.any (opFails s) = false)
    ∧ (errorDiagEmitted (runOps s newCtx ops) = true
        → finishCtx (runOps s newCtx ops) = false) := by
  constructor
  · rw [finishCtx, runOps_failed_eq s ops newCtx]
    simp [newCtx]
  · intro hd
    have hf := inv_runOps s ops newCtx
      (by intro h; simp [errorDiagEmitted, newCtx] at h) hd
    rw [finishCtx, hf]
    rfl

/-- C3 witness: a session consisting of one error-severity emission
through the context yields `finish` false. -/
theorem c3_witness :
    finishCtx (runOps noServices newCtx [COp.emitOp (Diag.mkError "boom")]) = false :=
  (c3_finish_characterization noServices [COp.emitOp (Diag.mkError "boom")]).2 rfl

/-- C8 counterexample: statement 0 assigns a conditional waveform whose
single element has a value of a type different from the target type; the
check leaves the fresh context untouched — no failure, no diagnostic —
although checking that waveform element against the target type, as the
claim requires for each assignment kind, would set the failure flag. -/
theorem c8_counterexample :
    sigAssignTypeck c8CexServices newCtx 0 = newCtx
    ∧ (typeckWaveform c8CexServices newCtx [⟨some 3, none⟩]
        (Ty.int ⟨Dir.to, 0, 255⟩)).failed = true := by
  exact ⟨rfl, by decide⟩

/-- C8 amended: the signal-assignment rule resolves the type of the
left-hand-side target, fails with the bug-severity not-implemented
diagnostic on an aggregate target, and checks each waveform element of the
waveform against the target type for the plain-waveform kind only; every
other assignment kind (force, release, conditional, selected) checks
nothing beyond the no-op delay mechanism hook and leaves the context
unchanged. -/
theorem c8_amended (s : Services) (st : CtxState) (id : Nat) (h : SigAssignHir)
    (hhir : s.hirSigAssign id = Except.ok h) :
    (h.target = SigAssignTarget.aggregate →
      sigAssignTypeck s st id = emitCtx st (Diag.mkBug msgAggregateTarget))
    ∧ (∀ sig lhsTy dm wave, h.target = SigAssignTarget.name sig →
        s.tyOf sig = Except.ok lhsTy → h.kind = SigAssignKind.simpleWave dm wave →
        sigAssignTypeck s st id = typeckWaveform s st wave lhsTy)
    ∧ (∀ sig lhsTy, h.target = SigAssignTarget.name sig →
        s.tyOf sig = Except.ok lhsTy →
        (∀ dm wave, h.kind ≠ SigAssignKind.simpleWave dm wave) →
        sigAssignTypeck s st id = st) := by
  obtain ⟨tgt, kind⟩ := h
  refine ⟨?_, ?_, ?_⟩
  · intro ht
    cases ht
    simp [sigAssignTypeck, hhir]
  · intro sig lhsTy dm wave ht hty hk
    cases ht
    cases hk
    simp [sigAssignTypeck, hhir, hty, typeckDelayMechanism]
  · intro sig lhsTy ht hty hnk
    cases ht
    cases kind with
    | simpleWave dm wave => exact absurd rfl (hnk dm wave)
    | simpleForce e => simp [sigAssignTypeck, hhir, hty]
    | simpleRelease => simp [sigAssignTypeck, hhir, hty]
    | condWave dm c => simp [sigAssignTypeck, hhir, hty, typeckDelayMechanism]
    | condForce c => simp [sigAssignTypeck, hhir, hty]
    | selWave dm c => simp [sigAssignTypeck, hhir, hty, typeckDelayMechanism]
    | selForce c => simp [sigAssignTypeck, hhir, hty]

/-- C8 witness: a plain waveform assignment reduces to checking its
waveform against the resolved target type. -/
theorem c8_witness :
    sigAssignTypeck c8WitServices newCtx 1
      = typeckWaveform c8WitServices newCtx [⟨some 3, none⟩] (Ty.int ⟨Dir.to, 0, 255⟩) :=
  (c8_amended c8WitServices newCtx 1
      ⟨SigAssignTarget.name 2, SigAssignKind.simpleWave DelayMechanism.stub [⟨some 3, none⟩]⟩
      rfl).2.1 2 (Ty.int ⟨Dir.to, 0, 255⟩) DelayMechanism.stub [⟨some 3, none⟩] rfl rfl rfl

end Moore
